import Mathlib

/-!
Verification development for the STES (Seasonal Thermal Energy Storage)
simulation model (STES.py).  The Python class ThermalStorage is embedded
shallowly: numpy float arithmetic is idealised as real arithmetic, numpy
arrays become lists, and Python exceptions become Except String values.
Storage types are the raw dispatch strings of the source.
-/

namespace STES

noncomputable section

/-- The attributes of a ThermalStorage object, as set up by its
constructor (STES.py, ThermalStorage.init).  The geometry fields
(volume and the three surface areas) are stored results of the
geometry computation; initial_temp is the value the constructor writes
into T_sto at index 0. -/
structure ThermalStorage where
  storage_type : String
  dimensions : List ℝ
  rho : ℝ
  cp : ℝ
  T_ref : ℝ
  lambda_top : ℝ
  lambda_side : ℝ
  lambda_bottom : ℝ
  lambda_soil : ℝ
  T_amb : ℝ
  T_soil : ℝ
  T_max : ℝ
  T_min : ℝ
  dt_top : ℝ
  ds_side : ℝ
  db_bottom : ℝ
  hours : ℕ
  initial_temp : ℝ
  volume : ℝ
  S_top : ℝ
  S_side : ℝ
  S_bottom : ℝ

/-- Geometry dispatch of ThermalStorage.init (STES.py lines 161-169)
together with the three geometry methods.  Returns
(volume, S_top, S_side, S_bottom); unrecognized storage types raise
ValueError "Unsupported storage type".  A dimension tuple of the wrong
arity makes Python's unpacking fail, modelled as a distinct error. -/
def compute_geometry (storage_type : String) (dims : List ℝ) :
    Except String (ℝ × ℝ × ℝ × ℝ) :=
  if storage_type = "cylindrical" then
    match dims with
    | [radius, height] =>
        .ok (Real.pi * radius ^ 2 * height, Real.pi * radius ^ 2,
             2 * Real.pi * radius * height, Real.pi * radius ^ 2)
    | _ => .error "dimension unpacking failed"
  else if storage_type = "truncated_cone" then
    match dims with
    | [top_radius, bottom_radius, height] =>
        .ok ((1 / 3) * Real.pi * height *
               (top_radius ^ 2 + bottom_radius ^ 2 + top_radius * bottom_radius),
             Real.pi * top_radius ^ 2,
             Real.pi * (top_radius + bottom_radius) *
               Real.sqrt ((top_radius - bottom_radius) ^ 2 + height ^ 2),
             Real.pi * bottom_radius ^ 2)
    | _ => .error "dimension unpacking failed"
  else if storage_type = "truncated_trapezoid" then
    match dims with
    | [top_length, top_width, bottom_length, bottom_width, height] =>
        .ok ((1 / 3) * height *
               (top_length * top_width + bottom_length * bottom_width +
                Real.sqrt (top_length * top_width * (bottom_length * bottom_width))),
             top_length * top_width,
             2 * ((top_length + bottom_length) *
                    Real.sqrt ((top_length - bottom_length) ^ 2 + height ^ 2) / 2 +
                  (top_width + bottom_width) *
                    Real.sqrt ((top_width - bottom_width) ^ 2 + height ^ 2) / 2),
             bottom_length * bottom_width)
    | _ => .error "dimension unpacking failed"
  else .error "Unsupported storage type"

/-- ThermalStorage.init: validates the storage type through the
geometry dispatch and stores all attributes. -/
def mkThermalStorage (storage_type : String) (dims : List ℝ)
    (rho cp T_ref lambda_top lambda_side lambda_bottom lambda_soil
     T_amb T_soil T_max T_min initial_temp dt_top ds_side db_bottom : ℝ)
    (hours : ℕ) : Except String ThermalStorage := do
  let g ← compute_geometry storage_type dims
  .ok { storage_type := storage_type, dimensions := dims, rho := rho, cp := cp,
        T_ref := T_ref, lambda_top := lambda_top, lambda_side := lambda_side,
        lambda_bottom := lambda_bottom, lambda_soil := lambda_soil,
        T_amb := T_amb, T_soil := T_soil, T_max := T_max, T_min := T_min,
        dt_top := dt_top, ds_side := ds_side, db_bottom := db_bottom,
        hours := hours, initial_temp := initial_temp,
        volume := g.1, S_top := g.2.1, S_side := g.2.2.1, S_bottom := g.2.2.2 }

/-- ThermalStorage.calculate_heat_loss (STES.py lines 227-262), the
lumped heat loss in kW at a given storage temperature.  For the
storage type "cylindrical" no branch matches and Python returns None,
which makes the caller's array assignment raise; that fall-through is
modelled as an error value. -/
def calculate_heat_loss (cfg : ThermalStorage) (T_sto_last : ℝ) :
    Except String ℝ :=
  if cfg.storage_type = "cylindrical_overground" then
    let Q_t := (T_sto_last - cfg.T_amb) * (cfg.lambda_top / cfg.dt_top) * cfg.S_top
    let Q_s := (T_sto_last - cfg.T_amb) * (cfg.lambda_side / cfg.ds_side) * cfg.S_side
    let Q_b := (T_sto_last - cfg.T_amb) *
      (cfg.db_bottom / cfg.lambda_bottom +
        4 * cfg.dimensions.getD 0 0 / (3 * Real.pi * cfg.lambda_soil))⁻¹ * cfg.S_bottom
    .ok ((Q_t + Q_s + Q_b) / 1000)
  else if cfg.storage_type = "cylindrical_underground" then
    let R := cfg.dimensions.getD 0 0
    let H := cfg.dimensions.getD 1 0
    let d_min := cfg.lambda_side / cfg.lambda_soil * R * 0.37
    if cfg.ds_side > 2 * d_min then
      let K_sb := (cfg.ds_side / cfg.lambda_side + 0.52 * R / cfg.lambda_soil)⁻¹
      let S_c := Real.pi * R ^ 2 + 2 * Real.pi * R * H
      .ok ((T_sto_last - cfg.T_soil) * K_sb * S_c / 1000)
    else
      .error "Insulation thickness too small compared to minimum required thickness."
  else if cfg.storage_type = "truncated_cone" ∨ cfg.storage_type = "truncated_trapezoid" then
    let H := cfg.dimensions.getD 2 0
    let a := cfg.ds_side / cfg.lambda_side + Real.pi * H / (2 * cfg.lambda_soil)
    let b := Real.pi / cfg.lambda_soil
    let K_s := 1 / (b * H) * Real.log ((a + b * H) / a)
    let Q_s := (T_sto_last - cfg.T_soil) * K_s * cfg.S_side
    let c := cfg.db_bottom / cfg.lambda_bottom + Real.pi * H / (2 * cfg.lambda_soil)
    let K_b := 1 / (2 * b * cfg.dimensions.getD 1 0) *
      Real.log ((c + b * cfg.dimensions.getD 1 0) / c)
    let Q_b := (T_sto_last - cfg.T_soil) * K_b * cfg.S_bottom
    .ok ((Q_s + Q_b) / 1000)
  else .error "calculate_heat_loss returned None"

/-- The value written into Q_loss_layers at index i by
ThermalStorage.calculate_stratified_heat_loss (STES.py lines 286-343)
for a layer-temperature vector of length N.  Entries of storage types
that match no branch stay at their zero initialisation. -/
def stratLayerLoss (cfg : ThermalStorage) (N i : ℕ) (T : ℝ) : ℝ :=
  if cfg.storage_type = "cylindrical_overground" then
    if i = 0 then
      cfg.lambda_top / cfg.dt_top * cfg.S_top * (T - cfg.T_amb) / 1000
    else if i = N - 1 then
      (cfg.db_bottom / cfg.lambda_bottom +
        4 * cfg.dimensions.getD 0 0 / (3 * Real.pi * cfg.lambda_soil))⁻¹ *
        cfg.S_bottom * (T - cfg.T_amb) / 1000
    else
      cfg.lambda_side / cfg.ds_side * (T - cfg.T_amb) * cfg.S_side / N / 1000
  else if cfg.storage_type = "cylindrical_underground" then
    if i = 0 then
      cfg.lambda_top / cfg.dt_top * cfg.S_top * (T - cfg.T_amb) / 1000
    else
      let R := cfg.dimensions.getD 0 0
      let H := cfg.dimensions.getD 1 0
      let K_sb := (cfg.ds_side / cfg.lambda_side + 0.52 * R / cfg.lambda_soil)⁻¹
      let S_c := Real.pi * R ^ 2 + 2 * Real.pi * R * H
      K_sb * S_c * (T - cfg.T_soil) / N / 1000
  else if cfg.storage_type = "truncated_cone" ∨ cfg.storage_type = "truncated_trapezoid" then
    let H := cfg.dimensions.getD 2 0
    let a := cfg.ds_side / cfg.lambda_side + Real.pi * H / (2 * cfg.lambda_soil)
    let b := Real.pi / cfg.lambda_soil
    let K_s := 1 / (b * H) * Real.log ((a + b * H) / a)
    let c := cfg.db_bottom / cfg.lambda_bottom + Real.pi * H / (2 * cfg.lambda_soil)
    let K_b := 1 / (2 * b * cfg.dimensions.getD 1 0) *
      Real.log ((c + b * cfg.dimensions.getD 1 0) / c)
    if i = 0 then
      cfg.lambda_top / cfg.dt_top * cfg.S_top * (T - cfg.T_amb) / 1000
    else if i = N - 1 then
      K_b * cfg.S_bottom * (T - cfg.T_soil) / 1000
    else
      K_s * cfg.S_side * (T - cfg.T_soil) / N / 1000
  else 0

/-- ThermalStorage.calculate_stratified_heat_loss: per-layer losses and
their sum.  For an underground cylinder the insulation-thickness check
sits inside the loop body, so with at least one layer it raises before
anything is returned; this is the guard below. -/
def calculate_stratified_heat_loss (cfg : ThermalStorage) (Ts : List ℝ) :
    Except String (List ℝ × ℝ) :=
  if cfg.storage_type = "cylindrical_underground" ∧ Ts.length ≠ 0 ∧
      ¬ cfg.ds_side > 2 * (cfg.lambda_side / cfg.lambda_soil * cfg.dimensions.getD 0 0 * 0.37) then
    .error "Insulation thickness too small compared to minimum required thickness."
  else
    let L := (List.range Ts.length).map fun i => stratLayerLoss cfg Ts.length i (Ts.getD i 0)
    .ok (L, L.sum)

/-- One record per simulated hour of the single-node simulator
(the arrays Q_sto, Q_loss, T_sto at index t). -/
structure NodeStep where
  Q_sto : ℝ
  Q_loss : ℝ
  T_sto : ℝ

instance : Inhabited NodeStep := ⟨⟨0, 0, 0⟩⟩

/-- The temperature clamp of ThermalStorage.simulate
(STES.py lines 281-284). -/
def clampT (T_max T_min T : ℝ) : ℝ :=
  if T > T_max then T_max else if T < T_min then T_min else T

/-- The t-greater-zero iterations of ThermalStorage.simulate: at hour t
the loss is taken at the previous (already clamped) temperature, the
energy balance updates the stored heat, the temperature is recovered
from it and clamped.  The clamp does not feed back into Q_sto. -/
def nodeLoop (cfg : ThermalStorage) (Qin Qout : ℕ → ℝ) :
    ℕ → ℕ → ℝ → ℝ → Except String (List NodeStep)
  | _, 0, _, _ => .ok []
  | t, fuel + 1, QstoPrev, Tprev => do
    let loss ← calculate_heat_loss cfg Tprev
    let Qsto := QstoPrev + (Qin t - Qout t - loss)
    let T := Qsto * 3.6e6 / (cfg.volume * cfg.rho * cfg.cp) + cfg.T_ref
    let Tc := clampT cfg.T_max cfg.T_min T
    let rest ← nodeLoop cfg Qin Qout (t + 1) fuel Qsto Tc
    .ok (⟨Qsto, loss, Tc⟩ :: rest)

/-- ThermalStorage.simulate (STES.py lines 264-284).  At t = 0 the loss
is computed from T_sto at Python index -1: the zero-initialised last
array element when hours is at least 2, and the freshly written initial
temperature when hours = 1.  The initial stored heat is computed from
the unclamped initial temperature, then the clamp is applied to it. -/
def simulate (cfg : ThermalStorage) (Qin Qout : ℕ → ℝ) :
    Except String (List NodeStep) :=
  if cfg.hours = 0 then .ok []
  else do
    let Tlast0 := if cfg.hours = 1 then cfg.initial_temp else 0
    let loss0 ← calculate_heat_loss cfg Tlast0
    let Qsto0 := cfg.volume * cfg.rho * cfg.cp * (cfg.initial_temp - cfg.T_ref) / 3.6e6
    let T0c := clampT cfg.T_max cfg.T_min cfg.initial_temp
    let rest ← nodeLoop cfg Qin Qout 1 (cfg.hours - 1) Qsto0 T0c
    .ok (⟨Qsto0, loss0, T0c⟩ :: rest)

/-- One record per simulated hour of the stratified simulator: the row
of T_sto_layers at hour t, a snapshot of heat_stored_per_layer after
the hour, and the Q_sto, Q_loss and T_sto entries. -/
structure StratStep where
  T_layers : List ℝ
  energies : List ℝ
  Q_sto : ℝ
  Q_loss : ℝ
  T_sto : ℝ

instance : Inhabited StratStep := ⟨⟨[], [], 0, 0, 0⟩⟩

/-- Layer-thickness dispatch of ThermalStorage.simulate_stratified
(STES.py lines 352-362).  Faithful to the source, the truncated
trapezoid reads its dimension tuple at index 2 (which is the bottom
length there, not the height). -/
def layerThickness (cfg : ThermalStorage) (num_layers : ℕ) : Except String ℝ :=
  if cfg.storage_type = "cylindrical" then
    .ok (cfg.dimensions.getD 1 0 / num_layers)
  else if cfg.storage_type = "truncated_cone" then
    .ok (cfg.dimensions.getD 2 0 / num_layers)
  else if cfg.storage_type = "truncated_trapezoid" then
    .ok (cfg.dimensions.getD 2 0 / num_layers)
  else .error "Unsupported storage type for layer thickness calculation"

/-- Discharge pass of ThermalStorage.simulate_stratified (STES.py lines
381-396): walks the layers top to bottom over the previous-hour
temperatures and the stored-energy vector while the heat deficit lasts.
Its writes into the current temperature row are all overwritten by the
charge pass (which runs unconditionally and assigns every layer), so
only the energies and the remaining heat are returned. -/
def dischargePass (layerV rho cp T_min : ℝ) :
    ℝ → List ℝ → List ℝ → ℝ × List ℝ
  | remaining, Tp :: Tps, E :: Es =>
    if remaining < 0 then
      let available := (Tp - T_min) * layerV * rho * cp / 3.6e6
      let needed := |remaining|
      if needed ≥ available then
        let res := dischargePass layerV rho cp T_min (remaining + available) Tps Es
        (res.1, (E - available) :: res.2)
      else
        let res := dischargePass layerV rho cp T_min 0 Tps Es
        (res.1, (E - needed) :: res.2)
    else
      let res := dischargePass layerV rho cp T_min remaining Tps Es
      (res.1, E :: res.2)
  | remaining, _, Es => (remaining, Es)

/-- Charge pass of ThermalStorage.simulate_stratified (STES.py lines
399-425): walks the layers top to bottom over the previous-hour
temperatures, charging towards T_max while surplus heat lasts (when no
surplus is left the temperature is reset to the previous hour's value),
then subtracts the hour's per-layer loss from the stored energy and
clamps the temperature from below at T_min.
Returns (remaining heat, temperature row, energies). -/
def chargePass (layerV rho cp T_max T_min : ℝ) :
    ℝ → List ℝ → List ℝ → List ℝ → ℝ × List ℝ × List ℝ
  | remaining, Tp :: Tps, E :: Es, hl :: hls =>
    let max_heat := (T_max - Tp) * layerV * rho * cp / 3.6e6
    let step : ℝ × ℝ × ℝ :=
      if remaining > 0 then
        if remaining ≥ max_heat then (T_max, E + max_heat, remaining - max_heat)
        else (Tp + remaining * 3.6e6 / (layerV * rho * cp), E + remaining, 0)
      else (Tp, E, remaining)
    let Enew := step.2.1 - hl / 3600
    let Tnew := if step.1 < T_min then T_min else step.1
    let res := chargePass layerV rho cp T_max T_min step.2.2 Tps Es hls
    (res.1, Tnew :: res.2.1, Enew :: res.2.2)
  | remaining, _, Es, _ => (remaining, [], Es)

/-- Inner recursion of the diffusion pass, carrying the already updated
values of the current layer while the pairs (i, i+1) are processed left
to right with cascading updates (STES.py lines 428-442). -/
def diffusionAux (k S_side thickness layerV rho cp T_ref : ℝ) :
    ℝ → ℝ → List ℝ → List ℝ → List ℝ × List ℝ
  | T0, E0, T1 :: Tps, E1 :: Es =>
    let heat_transfer := k * S_side * (T0 - T1) / thickness
    let ht := heat_transfer / 3.6e6 * 3600
    let E0n := E0 - ht
    let E1n := E1 + ht
    let T0n := E0n * 3.6e6 / (layerV * rho * cp) + T_ref
    let T1n := E1n * 3.6e6 / (layerV * rho * cp) + T_ref
    let res := diffusionAux k S_side thickness layerV rho cp T_ref T1n E1n Tps Es
    (T0n :: res.1, E0n :: res.2)
  | T0, E0, Tps, Es => (T0 :: Tps, E0 :: Es)

/-- Inter-layer diffusion pass of ThermalStorage.simulate_stratified:
for each adjacent pair the conductive transfer is moved from the upper
to the lower layer's stored energy, and both temperatures are
immediately recomputed from the updated energies (no clamping). -/
def diffusionPass (k S_side thickness layerV rho cp T_ref : ℝ) :
    List ℝ → List ℝ → List ℝ × List ℝ
  | T0 :: Tps, E0 :: Es => diffusionAux k S_side thickness layerV rho cp T_ref T0 E0 Tps Es
  | Tps, Es => (Tps, Es)

/-- The t-greater-zero iterations of ThermalStorage.simulate_stratified:
per-layer losses from the previous hour's row, then the discharge,
charge and diffusion passes, then Q_sto as the sum of per-layer
energies and T_sto as the layer average. -/
def stratLoop (cfg : ThermalStorage) (Qin Qout : ℕ → ℝ) (k layerV thickness : ℝ) :
    ℕ → ℕ → List ℝ → List ℝ → Except String (List StratStep)
  | _, 0, _, _ => .ok []
  | t, fuel + 1, Tprev, E => do
    let l ← calculate_stratified_heat_loss cfg Tprev
    let remaining := Qin t - Qout t
    let d := dischargePass layerV cfg.rho cfg.cp cfg.T_min remaining Tprev E
    let c := chargePass layerV cfg.rho cfg.cp cfg.T_max cfg.T_min d.1 Tprev d.2 l.1
    let f := diffusionPass k cfg.S_side thickness layerV cfg.rho cfg.cp cfg.T_ref c.2.1 c.2.2
    let rest ← stratLoop cfg Qin Qout k layerV thickness (t + 1) fuel f.1 f.2
    .ok (⟨f.1, f.2, f.2.sum, l.2, f.1.sum / f.1.length⟩ :: rest)

/-- ThermalStorage.simulate_stratified (STES.py lines 345-448) with its
num_layers and thermal_conductivity arguments.  At t = 0 the loss is
computed on the row at Python index -1 of the matrix np.full-ed with
the initial temperature, i.e. on all-initial temperatures; the initial
stored heat is split evenly across the layers, and Q_sto of the hour is
re-assigned as the sum of the per-layer energies (line 445). -/
def simulate_stratified (cfg : ThermalStorage) (Qin Qout : ℕ → ℝ)
    (num_layers : ℕ) (thermal_conductivity : ℝ) :
    Except String (List StratStep) := do
  let thickness ← layerThickness cfg num_layers
  let layerV := cfg.volume / num_layers
  if cfg.hours = 0 then .ok []
  else do
    let T0row := List.replicate num_layers cfg.initial_temp
    let l0 ← calculate_stratified_heat_loss cfg T0row
    let Qsto0 := cfg.volume * cfg.rho * cfg.cp * (cfg.initial_temp - cfg.T_ref) / 3.6e6
    let E0 := List.replicate num_layers (Qsto0 / num_layers)
    let rest ← stratLoop cfg Qin Qout thermal_conductivity layerV thickness 1
      (cfg.hours - 1) T0row E0
    .ok (⟨T0row, E0, E0.sum, l0.2, T0row.sum / T0row.length⟩ :: rest)

/-! ## Claim C2: the diffusion pass conserves the sum of per-layer energies -/

theorem diffusionAux_sum (k S_side thickness layerV rho cp T_ref T0 E0 : ℝ)
    (Tps Es : List ℝ) :
    (diffusionAux k S_side thickness layerV rho cp T_ref T0 E0 Tps Es).2.sum
      = E0 + Es.sum := by
  induction Tps generalizing T0 E0 Es with
  | nil => simp [diffusionAux]
  | cons T1 Tps ih =>
    cases Es with
    | nil => simp [diffusionAux]
    | cons E1 Es =>
      simp only [diffusionAux, List.sum_cons]
      rw [ih]
      ring

/-- Claim C2: in every execution of the inter-layer diffusion pass of the
stratified simulator, the amount subtracted from layer i equals the amount
added to layer i+1 for each adjacent pair, so the pass conserves the sum
of the per-layer stored energies. -/
theorem C2_diffusion_conserves_energy_sum
    (k S_side thickness layerV rho cp T_ref : ℝ) (Ts Es : List ℝ) :
    (diffusionPass k S_side thickness layerV rho cp T_ref Ts Es).2.sum = Es.sum := by
  cases Ts with
  | nil => cases Es <;> simp [diffusionPass]
  | cons T0 Tps =>
    cases Es with
    | nil => simp [diffusionPass]
    | cons E0 Es => simp [diffusionPass, diffusionAux_sum]

/-! ## Claim C3: which storage types the geometry construction accepts -/

/-- Claim C3 counterexample: the claim says geometry construction succeeds
for all five recognized storage-type tags, but the constructor's dispatch
only accepts cylindrical, truncated_cone and truncated_trapezoid; the tag
cylindrical_overground is rejected with the unsupported-type error. -/
theorem C3_counterexample :
    compute_geometry "cylindrical_overground" [1, 1] = .error "Unsupported storage type" := rfl

/-- Claim C3 (amended): geometry construction succeeds exactly for the
three tags cylindrical, truncated_cone and truncated_trapezoid (given a
dimension tuple of the right arity) and fails with the unsupported-type
error for every other tag, including cylindrical_overground and
cylindrical_underground. -/
theorem C3_amended :
    (∀ r h : ℝ, ∃ g, compute_geometry "cylindrical" [r, h] = .ok g) ∧
    (∀ rt rb h : ℝ, ∃ g, compute_geometry "truncated_cone" [rt, rb, h] = .ok g) ∧
    (∀ tl tw bl bw h : ℝ, ∃ g, compute_geometry "truncated_trapezoid" [tl, tw, bl, bw, h] = .ok g) ∧
    (∀ (s : String) (dims : List ℝ), s ≠ "cylindrical" → s ≠ "truncated_cone" →
      s ≠ "truncated_trapezoid" → compute_geometry s dims = .error "Unsupported storage type") := by
  refine ⟨fun r h => ⟨_, rfl⟩, fun rt rb h => ⟨_, rfl⟩, fun tl tw bl bw h => ⟨_, rfl⟩, ?_⟩
  intro s dims h1 h2 h3
  unfold compute_geometry
  rw [if_neg h1, if_neg h2, if_neg h3]

/-- Witness for C3_amended at concrete inputs. -/
theorem C3_amended_witness :
    (∃ g, compute_geometry "cylindrical" [3, 4] = .ok g) ∧
    (∃ g, compute_geometry "truncated_cone" [3, 2, 5] = .ok g) ∧
    (∃ g, compute_geometry "truncated_trapezoid" [4, 3, 2, 1, 5] = .ok g) ∧
    compute_geometry "cylindrical_underground" [3, 4] = .error "Unsupported storage type" :=
  ⟨C3_amended.1 3 4, C3_amended.2.1 3 2 5, C3_amended.2.2.1 4 3 2 1 5,
   C3_amended.2.2.2 "cylindrical_underground" [3, 4] (by decide) (by decide) (by decide)⟩

/-! ## Claim C1: layer temperatures and the interval from T_min to T_max -/

/-- A cylindrical storage (r = 1 m, h = 1 m, geometry as computed by the
constructor) with a deliberately small heat capacity, used to exhibit a
bounds violation of the stratified simulator. -/
def cfgC1 : ThermalStorage :=
  { storage_type := "cylindrical", dimensions := [1, 1], rho := 1, cp := 3600,
    T_ref := 10, lambda_top := 1, lambda_side := 1, lambda_bottom := 1,
    lambda_soil := 1, T_amb := 10, T_soil := 10, T_max := 95, T_min := 40,
    dt_top := 1, ds_side := 1, db_bottom := 1, hours := 2, initial_temp := 60,
    volume := Real.pi, S_top := Real.pi, S_side := 2 * Real.pi, S_bottom := Real.pi }

def QinC1 : ℕ → ℝ := fun t => if t = 1 then 1 / 100 else 0

def QoutC1 : ℕ → ℝ := fun _ => 0

def runC1 : Except String (List StratStep) := simulate_stratified cfgC1 QinC1 QoutC1 2 1

/-- Claim C1 counterexample: a stratified run of two hours, started at
60 degrees inside the band from T_min = 40 to T_max = 95, whose hour-1
layer temperatures leave the band on both sides: after the diffusion pass
recomputes temperatures from the stored energies without clamping, layer 0
is below T_min and layer 1 is above T_max. -/
theorem C1_counterexample :
    (runC1.toOption.getD []).length = 2 ∧
    cfgC1.T_min ≤ cfgC1.initial_temp ∧ cfgC1.initial_temp ≤ cfgC1.T_max ∧
    ((runC1.toOption.getD []).getD 1 default).T_layers.getD 0 0 < cfgC1.T_min ∧
    cfgC1.T_max < ((runC1.toOption.getD []).getD 1 default).T_layers.getD 1 0 := by
  have hrun : runC1 = .ok
      [⟨[60, 60], [Real.pi/40, Real.pi/40], Real.pi/40 + Real.pi/40, 0, 60⟩,
       ⟨[60 - 140/Real.pi, 60 + 160/Real.pi], [Real.pi/40 - 7/100, Real.pi/40 + 2/25],
         Real.pi/40 - 7/100 + (Real.pi/40 + 2/25), 0,
         (60 - 140/Real.pi + (60 + 160/Real.pi))/2⟩] := by
    have hloss : calculate_stratified_heat_loss cfgC1 [60, 60] = .ok ([0, 0], 0) := by
      simp only [calculate_stratified_heat_loss, cfgC1, stratLayerLoss]
      norm_num [List.range_succ]
      simp
    have hd : dischargePass (Real.pi/2) 1 3600 40 (1/100) [60,60] [Real.pi/40, Real.pi/40]
        = (1/100, [Real.pi/40, Real.pi/40]) := by
      simp only [dischargePass]
      norm_num
    have hc : chargePass (Real.pi/2) 1 3600 95 40 (1/100) [60,60] [Real.pi/40, Real.pi/40] [0,0]
        = (0, [60 + 20/Real.pi, 60], [Real.pi/40 + 1/100, Real.pi/40]) := by
      have hpi := Real.pi_gt_three
      have h1 : ¬ ((1:ℝ)/100 ≥ (95 - 60) * (Real.pi/2) * 1 * 3600 / 3.6e6) := by
        rw [ge_iff_le, not_le]
        nlinarith
      have h2 : ¬ ((60:ℝ) + 36000 / (Real.pi / 2 * 3600) < 40) := by
        rw [not_lt]
        have : (0:ℝ) < 36000 / (Real.pi / 2 * 3600) := by positivity
        linarith
      simp only [chargePass]
      rw [if_pos (by norm_num : ((1:ℝ)/100) > 0), if_neg h1]
      norm_num
      rw [if_neg h2]
      rw [show (36000:ℝ) / (Real.pi / 2 * 3600) = 20 / Real.pi by
        rw [div_eq_div_iff (by positivity) (by positivity)]
        ring]
    have hf : diffusionPass 1 (2*Real.pi) (1/2) (Real.pi/2) 1 3600 10
        [60 + 20/Real.pi, 60] [Real.pi/40 + 1/100, Real.pi/40]
        = ([60 - 140/Real.pi, 60 + 160/Real.pi], [Real.pi/40 - 7/100, Real.pi/40 + 2/25]) := by
      have hpi := Real.pi_pos
      simp only [diffusionPass, diffusionAux]
      norm_num
      refine ⟨⟨by field_simp; ring, by field_simp; ring⟩, by field_simp; ring, by field_simp; ring⟩
    have hloop : stratLoop cfgC1 QinC1 QoutC1 1 (Real.pi/2) (1/2) 1 1 [60, 60]
        [Real.pi/40, Real.pi/40]
        = .ok [⟨[60 - 140/Real.pi, 60 + 160/Real.pi], [Real.pi/40 - 7/100, Real.pi/40 + 2/25],
            Real.pi/40 - 7/100 + (Real.pi/40 + 2/25), 0,
            (60 - 140/Real.pi + (60 + 160/Real.pi))/2⟩] := by
      rw [show (1:ℕ) = 0 + 1 from rfl]
      rw [stratLoop]
      rw [hloss]
      simp only [bind, Except.bind]
      norm_num [QinC1, QoutC1, cfgC1]
      rw [hd]
      norm_num
      rw [hc]
      norm_num
      rw [hf]
      simp only [stratLoop]
      norm_num [List.sum_cons, List.sum_nil]
    have hth : layerThickness cfgC1 2 = .ok (1/2) := by
      simp only [layerThickness, cfgC1]
      norm_num
    rw [runC1, simulate_stratified, hth]
    simp only [bind, Except.bind]
    norm_num [cfgC1, List.replicate]
    simp only [cfgC1] at hloss hloop
    rw [show Real.pi * 3600 * 50 / 3600000 / 2 = Real.pi / 40 from by ring]
    rw [hloss, hloop]
    norm_num
    ring
  have hpi := Real.pi_gt_three
  have hpi2 := Real.pi_lt_d2
  have hpos := Real.pi_pos
  rw [hrun]
  simp only [Except.toOption, Option.getD, List.getD, cfgC1]
  norm_num
  constructor
  · have h20 : (20:ℝ) < 140 / Real.pi := by
      rw [lt_div_iff₀ hpos]
      nlinarith
    linarith
  · have h35 : (35:ℝ) < 160 / Real.pi := by
      rw [lt_div_iff₀ hpos]
      nlinarith
    linarith

theorem lower_clamp_ge (T_min y : ℝ) : T_min ≤ if y < T_min then T_min else y := by
  split
  · exact le_refl _
  · next h => exact le_of_not_lt h

/-- Claim C1 (amended): immediately after the charge pass, which ends by
clamping every layer from below at T_min, every layer temperature is at
least T_min; the subsequent diffusion pass recomputes temperatures from
stored energies without any clamp, and the resulting end-of-hour layer
temperatures can leave the closed interval from T_min to T_max on either
side. -/
theorem C1_amended (layerV rho cp T_max T_min rem : ℝ) (Tprev Es hls : List ℝ) (x : ℝ)
    (hx : x ∈ (chargePass layerV rho cp T_max T_min rem Tprev Es hls).2.1) :
    T_min ≤ x := by
  induction Tprev generalizing rem Es hls with
  | nil => simp [chargePass] at hx
  | cons Tp Tps ih =>
    cases Es with
    | nil => simp [chargePass] at hx
    | cons E Es =>
      cases hls with
      | nil => simp [chargePass] at hx
      | cons hl hls =>
        simp only [chargePass, List.mem_cons] at hx
        rcases hx with hx | hx
        · subst hx
          exact lower_clamp_ge _ _
        · exact ih _ _ _ hx

/-- Witness for C1_amended at concrete inputs. -/
theorem C1_amended_witness :
    (40:ℝ) ≤ 95 ∧ (95:ℝ) ∈ (chargePass 1 1 3.6e6 95 40 50 [60] [10] [0]).2.1 :=
  ⟨C1_amended 1 1 3.6e6 95 40 50 [60] [10] [0] 95 (by norm_num [chargePass]),
   by norm_num [chargePass]⟩

/-! ## Claim C6: single-node energy conservation under zero loss -/

def Qzero : ℕ → ℝ := fun _ => 0

theorem nodeLoop_zero_loss (cfg : ThermalStorage) (Qin Qout : ℕ → ℝ)
    (hloss : ∀ T, calculate_heat_loss cfg T = .ok 0) :
    ∀ (n t : ℕ) (Qp Tp : ℝ), ∃ l, nodeLoop cfg Qin Qout t n Qp Tp = .ok l ∧
      l.length = n ∧
      ∀ i, i < n → (l.getD i default).Q_sto =
        (if i = 0 then Qp else (l.getD (i - 1) default).Q_sto) + (Qin (t + i) - Qout (t + i)) := by
  intro n
  induction n with
  | zero =>
    intro t Qp Tp
    exact ⟨[], rfl, rfl, fun i hi => absurd hi (Nat.not_lt_zero i)⟩
  | succ n ih =>
    intro t Qp Tp
    obtain ⟨l, hl, hlen, hchain⟩ :=
      ih (t + 1) (Qp + (Qin t - Qout t - 0))
        (clampT cfg.T_max cfg.T_min
          ((Qp + (Qin t - Qout t - 0)) * 3.6e6 / (cfg.volume * cfg.rho * cfg.cp) + cfg.T_ref))
    refine ⟨⟨Qp + (Qin t - Qout t - 0), 0,
        clampT cfg.T_max cfg.T_min
          ((Qp + (Qin t - Qout t - 0)) * 3.6e6 / (cfg.volume * cfg.rho * cfg.cp) + cfg.T_ref)⟩ :: l,
      ?_, by simp [hlen], ?_⟩
    · simp only [nodeLoop, hloss, bind, Except.bind, hl]
    · intro i hi
      cases i with
      | zero => simp
      | succ j =>
        have hj : j < n := by omega
        have := hchain j hj
        simp only [List.getD_cons_succ]
        rw [this]
        have harg : t + 1 + j = t + (j + 1) := by omega
        rw [harg]
        cases j with
        | zero => simp
        | succ m => simp

/-- Claim C6: for the single-node simulator, when the heat loss is zero at
every step the stored-energy difference between consecutive hours equals
the net input exactly (the temperature clamps never enter the energy
balance, so temperature bounds, disabled or not, cannot perturb it). -/
theorem C6_single_node_energy_conservation (cfg : ThermalStorage)
    (Qin Qout : ℕ → ℝ) (res : List NodeStep) (t : ℕ)
    (hloss : ∀ T, calculate_heat_loss cfg T = .ok 0)
    (hrun : simulate cfg Qin Qout = .ok res)
    (ht : 1 ≤ t) (htl : t < res.length) :
    (res.getD t default).Q_sto - (res.getD (t - 1) default).Q_sto = Qin t - Qout t := by
  unfold simulate at hrun
  by_cases hh : cfg.hours = 0
  · rw [if_pos hh] at hrun
    cases hrun
    simp at htl
  · rw [if_neg hh] at hrun
    obtain ⟨l, hl, hlen, hchain⟩ := nodeLoop_zero_loss cfg Qin Qout hloss (cfg.hours - 1) 1
      (cfg.volume * cfg.rho * cfg.cp * (cfg.initial_temp - cfg.T_ref) / 3.6e6)
      (clampT cfg.T_max cfg.T_min cfg.initial_temp)
    simp only [hloss, hl, bind, Except.bind, Except.ok.injEq] at hrun
    subst hrun
    have hlt : t - 1 < l.length := by
      simp at htl
      omega
    have := hchain (t - 1) (by omega)
    rcases Nat.exists_eq_add_of_le ht with ⟨j, hj⟩
    subst hj
    simp only [Nat.add_sub_cancel_left] at this ⊢
    cases j with
    | zero =>
      simp only [List.getD_cons_succ, List.getD_cons_zero]
      rw [this]
      simp
    | succ m =>
      rw [show 1 + (m + 1) = (m + 1) + 1 from by omega] at this ⊢
      simp only [List.getD_cons_succ]
      rw [this]
      simp

/-- A configuration whose lumped heat loss vanishes identically: an
overground cylinder object with zero top and side conductivities and a
zero bottom surface area. -/
def cfgC6 : ThermalStorage :=
  { storage_type := "cylindrical_overground", dimensions := [1, 1], rho := 1,
    cp := 3.6e6, T_ref := 10, lambda_top := 0, lambda_side := 0, lambda_bottom := 1,
    lambda_soil := 1, T_amb := 10, T_soil := 10, T_max := 1000, T_min := -1000,
    dt_top := 1, ds_side := 1, db_bottom := 1, hours := 3, initial_temp := 60,
    volume := 1, S_top := 1, S_side := 1, S_bottom := 0 }

def QinC6 : ℕ → ℝ := fun t => if t = 1 then 5 else if t = 2 then 7 else 0

def QoutC6 : ℕ → ℝ := fun t => if t = 1 then 2 else if t = 2 then 3 else 0

theorem cfgC6_zero_loss : ∀ T, calculate_heat_loss cfgC6 T = .ok 0 := by
  intro T
  simp only [calculate_heat_loss, cfgC6]
  norm_num

/-- Witness for C6_single_node_energy_conservation: a concrete three-hour
zero-loss run in which the hour-1 stored-energy difference equals the net
input 5 - 2 = 3. -/
theorem C6_witness :
    (([⟨50, 0, 60⟩, ⟨53, 0, 63⟩, ⟨57, 0, 67⟩] : List NodeStep).getD 1 default).Q_sto -
      (([⟨50, 0, 60⟩, ⟨53, 0, 63⟩, ⟨57, 0, 67⟩] : List NodeStep).getD 0 default).Q_sto
      = QinC6 1 - QoutC6 1 := by
  have hrun : simulate cfgC6 QinC6 QoutC6 =
      .ok [⟨50, 0, 60⟩, ⟨53, 0, 63⟩, ⟨57, 0, 67⟩] := by
    simp only [simulate, nodeLoop, cfgC6, QinC6, QoutC6, clampT, calculate_heat_loss,
      bind, Except.bind]
    norm_num
  exact C6_single_node_energy_conservation cfgC6 QinC6 QoutC6
    [⟨50, 0, 60⟩, ⟨53, 0, 63⟩, ⟨57, 0, 67⟩] 1 cfgC6_zero_loss hrun (le_refl 1) (by norm_num)

/-! ## Claim C9: plain cylindrical storage breaks the single-node simulator -/

/-- Claim C9: for the storage type cylindrical, which is the only cylinder
tag the constructor accepts, the lumped heat-loss dispatch matches no
branch (Python returns None) for every temperature, so the single-node
simulator fails at its first step instead of producing a trajectory. -/
theorem C9_cylindrical_single_node_fails (cfg : ThermalStorage) (Qin Qout : ℕ → ℝ)
    (hty : cfg.storage_type = "cylindrical") :
    (∀ T, calculate_heat_loss cfg T = .error "calculate_heat_loss returned None") ∧
    (1 ≤ cfg.hours → (simulate cfg Qin Qout).toOption = none) := by
  have hl : ∀ T, calculate_heat_loss cfg T = .error "calculate_heat_loss returned None" := by
    intro T
    unfold calculate_heat_loss
    rw [hty]
    simp
  refine ⟨hl, fun hh => ?_⟩
  unfold simulate
  rw [if_neg (by omega : ¬ cfg.hours = 0)]
  simp [hl, bind, Except.bind, Except.toOption]

/-- Witness for C9_cylindrical_single_node_fails at a concrete
constructor-shaped cylindrical storage. -/
theorem C9_witness :
    calculate_heat_loss cfgC1 25 = .error "calculate_heat_loss returned None" ∧
    (simulate cfgC1 Qzero Qzero).toOption = none :=
  ⟨(C9_cylindrical_single_node_fails cfgC1 Qzero Qzero rfl).1 25,
   (C9_cylindrical_single_node_fails cfgC1 Qzero Qzero rfl).2 (by norm_num [cfgC1])⟩

/-! ## Claim C10: the hour-0 heat loss of the single-node simulator -/

/-- Claim C10 (amended): in every run with hours at least 2 that returns a
trajectory, the hour-0 heat loss is the lumped loss evaluated at
temperature 0 (the zero-initialised last element of the temperature
array), not at the initial temperature. -/
theorem C10_amended (cfg : ThermalStorage) (Qin Qout : ℕ → ℝ) (res : List NodeStep)
    (hh : 2 ≤ cfg.hours) (hrun : simulate cfg Qin Qout = .ok res) :
    calculate_heat_loss cfg 0 = .ok ((res.getD 0 default).Q_loss) := by
  unfold simulate at hrun
  rw [if_neg (by omega : ¬ cfg.hours = 0)] at hrun
  rw [if_neg (by omega : ¬ cfg.hours = 1)] at hrun
  simp only [bind, Except.bind] at hrun
  cases h0 : calculate_heat_loss cfg 0 with
  | error e => rw [h0] at hrun; simp at hrun
  | ok v =>
    rw [h0] at hrun
    simp only [] at hrun
    cases hr : nodeLoop cfg Qin Qout 1 (cfg.hours - 1)
        (cfg.volume * cfg.rho * cfg.cp * (cfg.initial_temp - cfg.T_ref) / 3.6e6)
        (clampT cfg.T_max cfg.T_min cfg.initial_temp) with
    | error e => rw [hr] at hrun; cases hrun
    | ok l =>
      rw [hr] at hrun
      cases hrun
      simp

/-- An overground cylinder object whose lumped loss at temperature T is
T / 1000 exactly (T_amb = 0, only the top term nonzero), run for a single
hour. -/
def cfgC10 : ThermalStorage :=
  { storage_type := "cylindrical_overground", dimensions := [1, 1], rho := 1,
    cp := 3.6e6, T_ref := 10, lambda_top := 1, lambda_side := 0, lambda_bottom := 1,
    lambda_soil := 1, T_amb := 0, T_soil := 0, T_max := 1000, T_min := -1000,
    dt_top := 1, ds_side := 1, db_bottom := 1, hours := 1, initial_temp := 60,
    volume := 1, S_top := 1, S_side := 1, S_bottom := 0 }

/-- Claim C10 counterexample: in a run with hours = 1 the Python index -1
is the freshly written initial temperature, so the hour-0 loss is
evaluated at the initial temperature 60 (value 60/1000), which differs
from the loss evaluated at temperature 0 (value 0). -/
theorem C10_counterexample :
    (simulate cfgC10 Qzero Qzero).toOption.map (fun r => (r.getD 0 default).Q_loss)
      = some (3 / 50) ∧
    (calculate_heat_loss cfgC10 0).toOption = some 0 ∧ ((3 : ℝ) / 50) ≠ 0 := by
  have hrun : simulate cfgC10 Qzero Qzero = .ok [⟨50, 3 / 50, 60⟩] := by
    simp only [simulate, nodeLoop, cfgC10, Qzero, clampT, calculate_heat_loss,
      bind, Except.bind]
    norm_num
  have hl0 : calculate_heat_loss cfgC10 0 = .ok 0 := by
    simp only [calculate_heat_loss, cfgC10]
    norm_num
  rw [hrun, hl0]
  norm_num [Except.toOption]

/-- Witness for C10_amended: a two-hour run of the same zero-ambient
overground object, whose hour-0 loss is the loss at temperature 0. -/
theorem C10_amended_witness :
    calculate_heat_loss { cfgC10 with hours := 2 } 0 =
      .ok ((((simulate { cfgC10 with hours := 2 } Qzero Qzero).toOption.getD []).getD 0
        default).Q_loss) := by
  have hrun : simulate { cfgC10 with hours := 2 } Qzero Qzero =
      .ok [⟨50, 0, 60⟩, ⟨50 - 3 / 50, 3 / 50, 2997 / 50⟩] := by
    simp only [simulate, nodeLoop, cfgC10, Qzero, clampT, calculate_heat_loss,
      bind, Except.bind]
    norm_num
  have h2 : (2 : ℕ) ≤ ({ cfgC10 with hours := 2 } : ThermalStorage).hours := by norm_num
  have := C10_amended { cfgC10 with hours := 2 } Qzero Qzero
    [⟨50, 0, 60⟩, ⟨50 - 3 / 50, 3 / 50, 2997 / 50⟩] h2 hrun
  rw [hrun]
  simpa using this

/-! ## Claim C7: underground cylinder with thin insulation fails before any step -/

/-- Claim C7: for storage type cylindrical_underground with side
insulation not exceeding twice the minimum thickness, any attempted run
raises before any simulation step executes: both simulators return an
error and produce no results, and the constructor itself already rejects
the cylindrical_underground tag for every dimension tuple. -/
theorem C7_underground_thin_insulation (cfg : ThermalStorage)
    (Qin Qout : ℕ → ℝ) (N : ℕ) (k : ℝ)
    (hty : cfg.storage_type = "cylindrical_underground")
    (hds : cfg.ds_side ≤ 2 * (cfg.lambda_side / cfg.lambda_soil * cfg.dimensions.getD 0 0 * 0.37))
    (hh : 1 ≤ cfg.hours) :
    (∃ e, simulate cfg Qin Qout = .error e) ∧
    (∃ e, simulate_stratified cfg Qin Qout N k = .error e) ∧
    (∀ dims : List ℝ, ∃ e, compute_geometry "cylindrical_underground" dims = .error e) := by
  have hloss : ∀ T, calculate_heat_loss cfg T =
      .error "Insulation thickness too small compared to minimum required thickness." := by
    intro T
    unfold calculate_heat_loss
    rw [hty]
    rw [if_neg (by decide : ¬ ("cylindrical_underground" = "cylindrical_overground"))]
    rw [if_pos rfl]
    simp only []
    rw [if_neg (not_lt.mpr hds)]
  refine ⟨⟨"Insulation thickness too small compared to minimum required thickness.", ?_⟩,
    ⟨"Unsupported storage type for layer thickness calculation", ?_⟩,
    fun dims => ⟨"Unsupported storage type", rfl⟩⟩
  · unfold simulate
    rw [if_neg (by omega : ¬ cfg.hours = 0)]
    simp [hloss, bind, Except.bind]
  · have hth : layerThickness cfg N =
        .error "Unsupported storage type for layer thickness calculation" := by
      unfold layerThickness
      rw [hty]
      rfl
    unfold simulate_stratified
    rw [hth]
    simp [bind, Except.bind]

/-- An underground-cylinder object whose side insulation of 0.1 m is
below twice the minimum thickness 0.37 m. -/
def cfgC7 : ThermalStorage :=
  { storage_type := "cylindrical_underground", dimensions := [1, 1], rho := 1000,
    cp := 4180, T_ref := 10, lambda_top := 1, lambda_side := 1, lambda_bottom := 1,
    lambda_soil := 1, T_amb := 10, T_soil := 10, T_max := 95, T_min := 40,
    dt_top := 1, ds_side := 0.1, db_bottom := 1, hours := 2, initial_temp := 60,
    volume := Real.pi, S_top := Real.pi, S_side := 2 * Real.pi, S_bottom := Real.pi }

/-- Witness for C7_underground_thin_insulation at the concrete object. -/
theorem C7_witness :
    (∃ e, simulate cfgC7 Qzero Qzero = .error e) ∧
    (∃ e, simulate_stratified cfgC7 Qzero Qzero 5 (6 / 10) = .error e) ∧
    (∀ dims : List ℝ, ∃ e, compute_geometry "cylindrical_underground" dims = .error e) :=
  C7_underground_thin_insulation cfgC7 Qzero Qzero 5 (6 / 10) rfl
    (by norm_num [cfgC7]) (by norm_num [cfgC7])

/-! ## Claim C4: the reported total equals the sum of per-layer energies -/

theorem stratLoop_Qsto_eq_sum (cfg : ThermalStorage) (Qin Qout : ℕ → ℝ)
    (k layerV thickness : ℝ) :
    ∀ (fuel t : ℕ) (Tprev E : List ℝ) (steps : List StratStep),
      stratLoop cfg Qin Qout k layerV thickness t fuel Tprev E = .ok steps →
      ∀ s ∈ steps, s.Q_sto = s.energies.sum := by
  intro fuel
  induction fuel with
  | zero =>
    intro t Tprev E steps h
    simp only [stratLoop] at h
    cases h
    intro s hs
    simp at hs
  | succ n ih =>
    intro t Tprev E steps h
    simp only [stratLoop, bind, Except.bind] at h
    split at h
    · cases h
    · split at h
      · cases h
      · next rest heq =>
        cases h
        intro s hs
        rcases List.mem_cons.mp hs with hs | hs
        · subst hs
          rfl
        · exact ih _ _ _ _ heq s hs

/-- Claim C4: whenever the stratified simulator returns a trajectory, the
reported total stored energy of every hour equals the sum of the
per-layer stored energies of that hour (exactly, in real arithmetic). -/
theorem C4_total_energy_is_layer_sum (cfg : ThermalStorage) (Qin Qout : ℕ → ℝ)
    (N : ℕ) (k : ℝ) (steps : List StratStep) (t : ℕ)
    (hrun : simulate_stratified cfg Qin Qout N k = .ok steps)
    (ht : t < steps.length) :
    (steps.getD t default).Q_sto = (steps.getD t default).energies.sum := by
  have hm : ∀ s ∈ steps, s.Q_sto = s.energies.sum := by
    unfold simulate_stratified at hrun
    simp only [bind, Except.bind] at hrun
    split at hrun
    · cases hrun
    · split at hrun
      · cases hrun
        intro s hs
        simp at hs
      · split at hrun
        · cases hrun
        · next heq =>
          split at hrun
          · cases hrun
          · next rest hrest =>
            cases hrun
            intro s hs
            rcases List.mem_cons.mp hs with hs | hs
            · subst hs
              rfl
            · exact stratLoop_Qsto_eq_sum cfg Qin Qout _ _ _ _ _ _ _ _ hrest s hs
  have hmem : steps.getD t default ∈ steps := by
    rw [List.getD_eq_getElem?_getD, List.getElem?_eq_getElem ht]
    exact List.getElem_mem ht
  exact hm _ hmem

/-- The cylindrical counterexample object run for a single hour. -/
def cfgH1 : ThermalStorage := { cfgC1 with hours := 1 }

/-- Witness for C4_total_energy_is_layer_sum: the hour-0 record of a
concrete one-hour stratified run. -/
theorem C4_witness :
    (([⟨[60, 60], [Real.pi/40, Real.pi/40], Real.pi/40 + Real.pi/40, 0, 60⟩] :
        List StratStep).getD 0 default).Q_sto =
      (([⟨[60, 60], [Real.pi/40, Real.pi/40], Real.pi/40 + Real.pi/40, 0, 60⟩] :
        List StratStep).getD 0 default).energies.sum := by
  have hrun : simulate_stratified cfgH1 Qzero Qzero 2 1 =
      .ok [⟨[60, 60], [Real.pi/40, Real.pi/40], Real.pi/40 + Real.pi/40, 0, 60⟩] := by
    have hloss : calculate_stratified_heat_loss cfgH1 [60, 60] = .ok ([0, 0], 0) := by
      simp only [calculate_stratified_heat_loss, cfgH1, cfgC1, stratLayerLoss]
      norm_num [List.range_succ]
      simp
    have hth : layerThickness cfgH1 2 = .ok (1/2) := by
      simp only [layerThickness, cfgH1, cfgC1]
      norm_num
    rw [simulate_stratified, hth]
    simp only [bind, Except.bind]
    norm_num [cfgH1, cfgC1, List.replicate]
    simp only [cfgH1, cfgC1] at hloss
    rw [show Real.pi * 3600 * 50 / 3600000 / 2 = Real.pi / 40 from by ring]
    rw [hloss]
    simp only [stratLoop]
    norm_num [List.sum_cons, List.sum_nil]
    ring
  exact C4_total_energy_is_layer_sum cfgH1 Qzero Qzero 2 1 _ 0 hrun (by norm_num)

/-! ## Claim C8: num_layers = 1 versus the single-node simulator -/

theorem heat_loss_cylindrical_none (cfg : ThermalStorage)
    (hty : cfg.storage_type = "cylindrical") :
    ∀ T, calculate_heat_loss cfg T = .error "calculate_heat_loss returned None" := by
  intro T
  unfold calculate_heat_loss
  rw [hty]
  simp

theorem simulate_cylindrical_none (cfg : ThermalStorage) (Qin Qout : ℕ → ℝ)
    (hty : cfg.storage_type = "cylindrical") (hh : 1 ≤ cfg.hours) :
    (simulate cfg Qin Qout).toOption = none := by
  unfold simulate
  rw [if_neg (by omega : ¬ cfg.hours = 0)]
  simp [heat_loss_cylindrical_none cfg hty, bind, Except.bind, Except.toOption]

theorem strat_loss_ok_of_not_underground (cfg : ThermalStorage)
    (hty : cfg.storage_type ≠ "cylindrical_underground") (Ts : List ℝ) :
    ∃ p, calculate_stratified_heat_loss cfg Ts = .ok p := by
  unfold calculate_stratified_heat_loss
  rw [if_neg (by simp [hty])]
  exact ⟨_, rfl⟩

theorem stratLoop_ok_of_loss_ok (cfg : ThermalStorage) (Qin Qout : ℕ → ℝ)
    (k layerV thickness : ℝ)
    (hl : ∀ Ts : List ℝ, ∃ p, calculate_stratified_heat_loss cfg Ts = .ok p) :
    ∀ (fuel t : ℕ) (Tprev E : List ℝ),
      ∃ steps, stratLoop cfg Qin Qout k layerV thickness t fuel Tprev E = .ok steps := by
  intro fuel
  induction fuel with
  | zero => exact fun t Tprev E => ⟨[], rfl⟩
  | succ n ih =>
    intro t Tprev E
    obtain ⟨p, hp⟩ := hl Tprev
    simp only [stratLoop, bind, Except.bind, hp]
    split
    · next e heq =>
      rw [(ih (t + 1) _ _).choose_spec] at heq
      cases heq
    · exact ⟨_, rfl⟩

theorem simulate_stratified_cylindrical_ok (cfg : ThermalStorage)
    (Qin Qout : ℕ → ℝ) (N : ℕ) (k : ℝ)
    (hty : cfg.storage_type = "cylindrical") :
    ∃ steps, simulate_stratified cfg Qin Qout N k = .ok steps := by
  have hth : layerThickness cfg N = .ok (cfg.dimensions.getD 1 0 / N) := by
    unfold layerThickness
    rw [if_pos hty]
  have hl := strat_loss_ok_of_not_underground cfg (by rw [hty]; decide)
  unfold simulate_stratified
  rw [hth]
  simp only [bind, Except.bind]
  by_cases hh : cfg.hours = 0
  · rw [if_pos hh]
    exact ⟨[], rfl⟩
  · rw [if_neg hh]
    obtain ⟨p, hp⟩ := hl (List.replicate N cfg.initial_temp)
    rw [hp]
    simp only []
    split
    · next e heq =>
      rw [(stratLoop_ok_of_loss_ok cfg Qin Qout k (cfg.volume / N)
        (cfg.dimensions.getD 1 0 / N) hl (cfg.hours - 1) 1 _ _).choose_spec] at heq
      cases heq
    · exact ⟨_, rfl⟩

/-- Claim C8 counterexample: on a concrete plain-cylindrical
configuration the single-node simulator produces no trajectory at all
(its lumped loss dispatch returns None), while the stratified simulator
with num_layers = 1 completes, so the two cannot produce the same
trajectory. -/
theorem C8_counterexample :
    (simulate cfgH1 Qzero Qzero).toOption = none ∧
    (simulate_stratified cfgH1 Qzero Qzero 1 (6/10)).toOption ≠ none := by
  constructor
  · exact simulate_cylindrical_none cfgH1 Qzero Qzero rfl (by norm_num [cfgH1, cfgC1])
  · obtain ⟨steps, hsteps⟩ :=
      simulate_stratified_cylindrical_ok cfgH1 Qzero Qzero 1 (6/10) rfl
    rw [hsteps]
    simp [Except.toOption]

/-- Claim C8 (amended): for every plain-cylindrical configuration with at
least one hour, the single-node simulator fails at its first step while
the stratified simulator with num_layers = 1 (whose per-layer loss
dispatch matches no branch and is identically zero) returns a
trajectory; the two simulators are therefore not equivalent at
num_layers = 1. -/
theorem C8_amended (cfg : ThermalStorage) (Qin Qout : ℕ → ℝ) (k : ℝ)
    (hty : cfg.storage_type = "cylindrical") (hh : 1 ≤ cfg.hours) :
    (simulate cfg Qin Qout).toOption = none ∧
    (simulate_stratified cfg Qin Qout 1 k).toOption ≠ none := by
  refine ⟨simulate_cylindrical_none cfg Qin Qout hty hh, ?_⟩
  obtain ⟨steps, hsteps⟩ := simulate_stratified_cylindrical_ok cfg Qin Qout 1 k hty
  rw [hsteps]
  simp [Except.toOption]

/-- Witness for C8_amended at a concrete cylindrical configuration. -/
theorem C8_amended_witness :
    (simulate cfgC1 QinC1 QoutC1).toOption = none ∧
    (simulate_stratified cfgC1 QinC1 QoutC1 1 (6/10)).toOption ≠ none :=
  C8_amended cfgC1 QinC1 QoutC1 (6/10) rfl (by norm_num [cfgC1])

/-! ## Claim C5: structure of the per-layer heat-loss computation -/

theorem range_map_getD (f : ℕ → ℝ) (n i : ℕ) (hi : i < n) :
    ((List.range n).map f).getD i 0 = f i := by
  rw [List.getD_eq_getElem?_getD, List.getElem?_map, List.getElem?_range hi]
  rfl

/-- Top-layer loss term of calculate_stratified_heat_loss (identical in
all four matching branches of the source). -/
def topLayerLoss (cfg : ThermalStorage) (T : ℝ) : ℝ :=
  cfg.lambda_top / cfg.dt_top * cfg.S_top * (T - cfg.T_amb) / 1000

/-- Bottom-layer loss term of the cylindrical_overground branch. -/
def overgroundBottomLayerLoss (cfg : ThermalStorage) (T : ℝ) : ℝ :=
  (cfg.db_bottom / cfg.lambda_bottom +
    4 * cfg.dimensions.getD 0 0 / (3 * Real.pi * cfg.lambda_soil))⁻¹ *
    cfg.S_bottom * (T - cfg.T_amb) / 1000

/-- Interior-layer loss term of the cylindrical_overground branch; the
side area is divided by the total layer count N. -/
def overgroundSideLayerLoss (cfg : ThermalStorage) (N : ℕ) (T : ℝ) : ℝ :=
  cfg.lambda_side / cfg.ds_side * (T - cfg.T_amb) * cfg.S_side / N / 1000

/-- Loss term of every non-top layer of the cylindrical_underground
branch: the combined side-plus-bottom coefficient K_sb on the combined
area S_c divided by the total layer count, against the soil
temperature (the last layer gets no distinct bottom coefficient). -/
def undergroundSideBottomLayerLoss (cfg : ThermalStorage) (N : ℕ) (T : ℝ) : ℝ :=
  (cfg.ds_side / cfg.lambda_side + 0.52 * cfg.dimensions.getD 0 0 / cfg.lambda_soil)⁻¹ *
    (Real.pi * cfg.dimensions.getD 0 0 ^ 2 +
      2 * Real.pi * cfg.dimensions.getD 0 0 * cfg.dimensions.getD 1 0) *
    (T - cfg.T_soil) / N / 1000

/-- Bottom-layer loss term of the truncated_cone and truncated_trapezoid
branch (coefficient K_b against soil). -/
def ptesBottomLayerLoss (cfg : ThermalStorage) (T : ℝ) : ℝ :=
  let H := cfg.dimensions.getD 2 0
  let b := Real.pi / cfg.lambda_soil
  let c := cfg.db_bottom / cfg.lambda_bottom + Real.pi * H / (2 * cfg.lambda_soil)
  1 / (2 * b * cfg.dimensions.getD 1 0) * Real.log ((c + b * cfg.dimensions.getD 1 0) / c) *
    cfg.S_bottom * (T - cfg.T_soil) / 1000

/-- Interior-layer loss term of the truncated_cone and
truncated_trapezoid branch (coefficient K_s against soil, side area
divided by the total layer count N). -/
def ptesSideLayerLoss (cfg : ThermalStorage) (N : ℕ) (T : ℝ) : ℝ :=
  let H := cfg.dimensions.getD 2 0
  let a := cfg.ds_side / cfg.lambda_side + Real.pi * H / (2 * cfg.lambda_soil)
  let b := Real.pi / cfg.lambda_soil
  1 / (b * H) * Real.log ((a + b * H) / a) * cfg.S_side * (T - cfg.T_soil) / N / 1000

/-- Claim C5 counterexample: for the storage type cylindrical the
per-layer computation matches no branch and returns all-zero losses, so
layer 0 does not use the top-surface coefficient (which is nonzero at
temperature 60 on the concrete configuration). -/
theorem C5_counterexample :
    calculate_stratified_heat_loss cfgC1 [60, 60] = .ok ([0, 0], 0) ∧
    topLayerLoss cfgC1 60 ≠ 0 := by
  constructor
  · simp only [calculate_stratified_heat_loss, cfgC1, stratLayerLoss]
    norm_num [List.range_succ]
    simp
  · simp only [topLayerLoss, cfgC1]
    norm_num [Real.pi_ne_zero]

/-- Claim C5 (amended): for every layer-temperature vector of length at
least 2 on which the per-layer computation succeeds, the returned total
is the sum of the per-layer vector, whose length is the layer count; for
the four branch-matching storage types layer 0 uses the top-surface
coefficient against ambient; for cylindrical_overground, truncated_cone
and truncated_trapezoid the last layer uses the respective bottom
coefficient and every interior layer the side coefficient with the side
area divided by the total layer count; for cylindrical_underground every
non-top layer (the last one included) instead uses the combined
side-plus-bottom coefficient divided by the layer count against soil;
and for cylindrical all per-layer losses are zero. -/
theorem C5_amended (cfg : ThermalStorage) (Ts L : List ℝ) (tot : ℝ)
    (hN : 2 ≤ Ts.length)
    (h : calculate_stratified_heat_loss cfg Ts = .ok (L, tot)) :
    tot = L.sum ∧ L.length = Ts.length ∧
    ((cfg.storage_type = "cylindrical_overground" ∨
      cfg.storage_type = "cylindrical_underground" ∨
      cfg.storage_type = "truncated_cone" ∨
      cfg.storage_type = "truncated_trapezoid") →
      L.getD 0 0 = topLayerLoss cfg (Ts.getD 0 0)) ∧
    (cfg.storage_type = "cylindrical_overground" →
      L.getD (Ts.length - 1) 0 = overgroundBottomLayerLoss cfg (Ts.getD (Ts.length - 1) 0) ∧
      ∀ i, 0 < i → i < Ts.length - 1 →
        L.getD i 0 = overgroundSideLayerLoss cfg Ts.length (Ts.getD i 0)) ∧
    ((cfg.storage_type = "truncated_cone" ∨ cfg.storage_type = "truncated_trapezoid") →
      L.getD (Ts.length - 1) 0 = ptesBottomLayerLoss cfg (Ts.getD (Ts.length - 1) 0) ∧
      ∀ i, 0 < i → i < Ts.length - 1 →
        L.getD i 0 = ptesSideLayerLoss cfg Ts.length (Ts.getD i 0)) ∧
    (cfg.storage_type = "cylindrical_underground" →
      ∀ i, 0 < i → i < Ts.length →
        L.getD i 0 = undergroundSideBottomLayerLoss cfg Ts.length (Ts.getD i 0)) ∧
    (cfg.storage_type = "cylindrical" → L = List.replicate Ts.length 0) := by
  unfold calculate_stratified_heat_loss at h
  split_ifs at h
  rw [Except.ok.injEq, Prod.mk.injEq] at h
  obtain ⟨hL, htot⟩ := h
  subst hL
  subst htot
  refine ⟨rfl, by simp, ?_, ?_, ?_, ?_, ?_⟩
  · intro hty
    rw [range_map_getD _ _ 0 (by omega)]
    unfold stratLayerLoss topLayerLoss
    rcases hty with hty | hty | hty | hty <;> rw [hty] <;> simp
  · intro hty
    constructor
    · rw [range_map_getD _ _ _ (by omega)]
      unfold stratLayerLoss overgroundBottomLayerLoss
      rw [hty]
      have hne : Ts.length - 1 ≠ 0 := by omega
      simp [hne]
    · intro i hi0 hiN
      rw [range_map_getD _ _ _ (by omega)]
      unfold stratLayerLoss overgroundSideLayerLoss
      rw [hty]
      have hne : i ≠ 0 := by omega
      have hne2 : i ≠ Ts.length - 1 := by omega
      simp [hne, hne2]
  · intro hty
    constructor
    · rw [range_map_getD _ _ _ (by omega)]
      unfold stratLayerLoss ptesBottomLayerLoss
      have hne : Ts.length - 1 ≠ 0 := by omega
      rcases hty with hty | hty <;> rw [hty] <;> simp [hne]
    · intro i hi0 hiN
      rw [range_map_getD _ _ _ (by omega)]
      unfold stratLayerLoss ptesSideLayerLoss
      have hne : i ≠ 0 := by omega
      have hne2 : i ≠ Ts.length - 1 := by omega
      rcases hty with hty | hty <;> rw [hty] <;> simp [hne, hne2]
  · intro hty i hi0 hiN
    rw [range_map_getD _ _ _ (by omega)]
    unfold stratLayerLoss undergroundSideBottomLayerLoss
    rw [hty]
    have hne : i ≠ 0 := by omega
    simp [hne]
  · intro hty
    rw [List.eq_replicate_iff]
    refine ⟨by simp, ?_⟩
    intro b hb
    rw [List.mem_map] at hb
    obtain ⟨i, _, hbi⟩ := hb
    rw [← hbi]
    unfold stratLayerLoss
    rw [hty]
    simp

/-- Witness for C5_amended: the cylindrical configuration with three
layers, whose per-layer losses are all zero. -/
theorem C5_amended_witness :
    2 ≤ ([40, 50, 60] : List ℝ).length ∧
    calculate_stratified_heat_loss cfgC1 [40, 50, 60] = .ok ([0, 0, 0], 0) ∧
    ([0, 0, 0] : List ℝ) = List.replicate ([40, 50, 60] : List ℝ).length 0 := by
  have h : calculate_stratified_heat_loss cfgC1 [40, 50, 60] = .ok ([0, 0, 0], 0) := by
    simp only [calculate_stratified_heat_loss, cfgC1, stratLayerLoss]
    norm_num [List.range_succ]
    simp
  refine ⟨by norm_num, h, ?_⟩
  exact (C5_amended cfgC1 [40, 50, 60] [0, 0, 0] 0 (by norm_num) h).2.2.2.2.2.2 rfl

end

end STES
